import Mathlib

/-!
Verification of the request-processing pipeline of the unfilter-the-hr
repository (api/translate.js): a single serverless handler that applies
CORS headers, an in-memory fixed-window IP rate limiter, method and
environment checks, body validation, one call to a completion provider
(OpenAI) and one best-effort write to a record store (Airtable).

The JavaScript handler is embedded shallowly: outbound calls are
parameters describing the outcome the external service would produce,
process environment is a record of optional strings, and the mutable
bucket map is passed explicitly.
-/

namespace UnfilterHR

/-- A whitespace character as JS trim treats the characters occurring in
this system (space, tab, newline, carriage return). -/
def isJsSpace (c : Char) : Bool :=
  c = ' ' || c = '\t' || c = '\n' || c = '\r'

/-- Executable model of String.prototype.trim: drop whitespace from both
ends. Implemented over the character list so that it reduces in the
kernel. -/
def jsTrim (s : String) : String :=
  String.mk (((s.data.dropWhile isJsSpace).reverse.dropWhile isJsSpace).reverse)

/-- The first element of s.split(sep) for a one-character separator:
everything before the first occurrence of the separator. -/
def firstSegment (sep : Char) (s : String) : String :=
  String.mk (s.data.takeWhile (fun c => c ≠ sep))

/-- One rate-limit bucket: mirrors the JS object with fields count and reset
(a millisecond timestamp). -/
structure Bucket where
  count : Nat
  reset : Nat
  deriving Repr, DecidableEq

/-- The in-memory bucket map keyed by client IP, mirroring the JS Map. -/
def Buckets : Type := String → Option Bucket

/-- The empty bucket map (fresh process, no requests seen yet). -/
def Buckets.empty : Buckets := fun _ => none

/-- Map update, mirroring buckets.set(ip, rec). -/
def Buckets.set (st : Buckets) (ip : String) (b : Bucket) : Buckets :=
  fun k => if k = ip then some b else st k

/-- Embedding of the JS function limited(ip, limit, windowMs): reads the
bucket (or a fresh one with count 0 and reset now + windowMs), zeroes it
when now is strictly past reset, increments the count, stores the bucket
back, and reports whether the new count exceeds the limit. Returns the
rejection flag together with the updated map. -/
def limited (st : Buckets) (ip : String) (limit windowMs now : Nat) :
    Bool × Buckets :=
  let rec0 := (st ip).getD { count := 0, reset := now + windowMs }
  let rec1 := if rec0.reset < now then
      ({ count := 0, reset := now + windowMs } : Bucket)
    else rec0
  let rec2 : Bucket := { count := rec1.count + 1, reset := rec1.reset }
  (decide (limit < rec2.count), st.set ip rec2)

/-- The process environment: each variable is absent (none) or set to a
string; a set-but-empty variable is falsy in JS, which truthyEnv captures. -/
structure Env where
  MODEL : Option String
  ALLOWED_ORIGIN : Option String
  RATE_LIMIT_PER_MIN : Option Nat
  OPENAI_API_KEY : Option String
  AIRTABLE_TOKEN : Option String
  AIRTABLE_BASE_ID : Option String
  AIRTABLE_TABLE_ID : Option String

/-- JS truthiness of an environment string: present and non-empty. -/
def truthyEnv : Option String → Bool
  | none => false
  | some s => decide (s ≠ "")

/-- MODEL resolution: process.env.MODEL with fallback gpt-4o-mini. -/
def envModel (e : Env) : String :=
  if truthyEnv e.MODEL then e.MODEL.getD "" else "gpt-4o-mini"

/-- ALLOWED_ORIGIN resolution with its hard-coded fallback. -/
def envAllowedOrigin (e : Env) : String :=
  if truthyEnv e.ALLOWED_ORIGIN then e.ALLOWED_ORIGIN.getD ""
  else "https://unfilter-the-hr.vercel.app"

/-- RATE_LIMIT_PER_MIN resolution: the parsed number, defaulting to 5. -/
def envRateLimit (e : Env) : Nat :=
  e.RATE_LIMIT_PER_MIN.getD 5

/-- The env vars the handler requires, with the names it reports missing:
required = [OPENAI_API_KEY, AIRTABLE_TOKEN, AIRTABLE_BASE_ID,
AIRTABLE_TABLE_ID], filtered by JS falsiness. -/
def missingEnv (e : Env) : List String :=
  (if truthyEnv e.OPENAI_API_KEY then [] else ["OPENAI_API_KEY"]) ++
  (if truthyEnv e.AIRTABLE_TOKEN then [] else ["AIRTABLE_TOKEN"]) ++
  (if truthyEnv e.AIRTABLE_BASE_ID then [] else ["AIRTABLE_BASE_ID"]) ++
  (if truthyEnv e.AIRTABLE_TABLE_ID then [] else ["AIRTABLE_TABLE_ID"])

/-- A JS value as far as the phrase field is concerned. -/
inductive JsValue where
  | undefined
  | nullv
  | str (s : String)
  | num (n : Int)
  | boolean (b : Bool)
  | obj
  deriving Repr, DecidableEq

/-- Outcome of extracting the phrase field from the request body: the
parse threw (unparseable JSON), or it produced some JS value (undefined
when the field is absent). -/
inductive BodyParse where
  | malformed
  | parsed (phrase : JsValue)
  deriving Repr, DecidableEq

/-- The validation test the code applies to the extracted phrase, the
negation of (!phrase || typeof phrase !== 'string'): accepted exactly
when the value is a string and not the empty string. No trimming occurs
here. -/
def phraseAccepted : JsValue → Bool
  | .str s => decide (s ≠ "")
  | _ => false

/-- An inbound HTTP request as the handler observes it: method, the Origin
header (never read by the code; kept for the CORS claims), the two IP
sources, the invocation time (Date.now()), and the parsed body. -/
structure Request where
  method : String
  origin : Option String
  xForwardedFor : Option String
  remoteAddress : Option String
  now : Nat
  body : BodyParse

/-- Client key derivation: first entry of x-forwarded-for trimmed, else
socket remoteAddress, else the shared fallback key unknown; each step
falls through on a JS-falsy (empty) value. -/
def ipOf (req : Request) : String :=
  let fromXff :=
    match req.xForwardedFor with
    | some s => jsTrim (firstSegment ',' s)
    | none => ""
  if fromXff ≠ "" then fromXff
  else
    match req.remoteAddress with
    | some a => if a ≠ "" then a else "unknown"
    | none => "unknown"

/-- Outcome of the provider (OpenAI) call as the handler observes it:
the call (or response parsing) threw, the response had a non-success
status with body text, or it succeeded with the optional chain
choices[0].message.content (none when any link is absent). -/
inductive ProviderOutcome where
  | throws (msg : String)
  | errorStatus (txt : String)
  | success (content : Option String)
  deriving Repr, DecidableEq

/-- Outcome of the record-store (Airtable) write as the handler observes
it: the call threw, a non-success status with body text, or success. -/
inductive StoreOutcome where
  | throws (msg : String)
  | errorStatus (txt : String)
  | ok
  deriving Repr, DecidableEq

/-- content?.trim() followed by the truthiness test on the result:
some trimmed text when usable, none when the chain was absent or the
trimmed text is empty. -/
def usableTranslation : Option String → Option String
  | none => none
  | some c => if jsTrim c = "" then none else some (jsTrim c)

/-- The row sent to the record store, with the field names of the code. -/
structure TranslationRecord where
  Phrase : String
  Translation : String
  Model : String
  Source : String
  deriving Repr, DecidableEq

/-- The JSON bodies the handler responds with. -/
inductive RespBody where
  | empty
  | err (msg : String)
  | errDetail (msg detail : String)
  | success (translation model : String) (storeOk : Bool)
      (storeDetail : Option String)
  deriving Repr, DecidableEq

/-- Everything observable about one handler invocation: the HTTP response
(status, headers, body), the bucket map afterwards, whether the provider
call was issued, the record sent to the store (none when the store was
never invoked), and the record the store durably accepted. -/
structure HandlerResult where
  status : Nat
  headers : List (String × String)
  body : RespBody
  buckets : Buckets
  providerCalled : Bool
  storeRequest : Option TranslationRecord
  persisted : Option TranslationRecord

/-- The four headers the handler sets unconditionally at entry. -/
def corsHeaders (e : Env) : List (String × String) :=
  [("Vary", "Origin"),
   ("Access-Control-Allow-Origin", envAllowedOrigin e),
   ("Access-Control-Allow-Methods", "POST, OPTIONS"),
   ("Access-Control-Allow-Headers", "Content-Type")]

/-- Header lookup in a response header list. -/
def getHeader (hs : List (String × String)) (k : String) : Option String :=
  (hs.find? (fun p => p.1 == k)).map (fun p => p.2)

/-- The try block of the handler, entered with a validated phrase: the
provider call, the 502 paths, the store write and the 200 paths, with
any thrown error converted by the surrounding catch into a 500
Server error response. -/
def postStage (e : Env) (st1 : Buckets) (phrase : String)
    (prov : ProviderOutcome) (store : StoreOutcome) : HandlerResult :=
  match prov with
  | .throws msg =>
      { status := 500, headers := corsHeaders e,
        body := .errDetail "Server error" msg, buckets := st1,
        providerCalled := true, storeRequest := none, persisted := none }
  | .errorStatus txt =>
      { status := 502, headers := corsHeaders e,
        body := .errDetail "OpenAI error" txt, buckets := st1,
        providerCalled := true, storeRequest := none, persisted := none }
  | .success content =>
      match usableTranslation content with
      | none =>
          { status := 502, headers := corsHeaders e,
            body := .err "OpenAI returned no translation", buckets := st1,
            providerCalled := true, storeRequest := none, persisted := none }
      | some t =>
          let row : TranslationRecord :=
            { Phrase := phrase, Translation := t, Model := envModel e,
              Source := "webapp" }
          match store with
          | .throws msg =>
              { status := 500, headers := corsHeaders e,
                body := .errDetail "Server error" msg, buckets := st1,
                providerCalled := true, storeRequest := some row,
                persisted := none }
          | .errorStatus atText =>
              { status := 200, headers := corsHeaders e,
                body := .success t (envModel e) false (some atText),
                buckets := st1, providerCalled := true,
                storeRequest := some row, persisted := none }
          | .ok =>
              { status := 200, headers := corsHeaders e,
                body := .success t (envModel e) true none,
                buckets := st1, providerCalled := true,
                storeRequest := some row, persisted := some row }

/-- Body parsing and phrase validation, then the try block. -/
def bodyStage (e : Env) (st1 : Buckets) (req : Request)
    (prov : ProviderOutcome) (store : StoreOutcome) : HandlerResult :=
  match req.body with
  | .malformed =>
      { status := 400, headers := corsHeaders e,
        body := .err "Invalid JSON body", buckets := st1,
        providerCalled := false, storeRequest := none, persisted := none }
  | .parsed pv =>
      if phraseAccepted pv then
        match pv with
        | .str s => postStage e st1 s prov store
        | _ =>
            { status := 400, headers := corsHeaders e,
              body := .err "Missing phrase", buckets := st1,
              providerCalled := false, storeRequest := none,
              persisted := none }
      else
        { status := 400, headers := corsHeaders e,
          body := .err "Missing phrase", buckets := st1,
          providerCalled := false, storeRequest := none, persisted := none }

/-- Embedding of the exported handler: CORS headers, the OPTIONS early
return, the rate-limit check, the method check, the env check, body
validation, then the provider and store stages. The two outcome
parameters describe what the external services would do if called;
branches that never reach a service ignore its parameter. -/
def handler (e : Env) (st : Buckets) (req : Request)
    (prov : ProviderOutcome) (store : StoreOutcome) : HandlerResult :=
  if req.method = "OPTIONS" then
    { status := 204, headers := corsHeaders e, body := .empty, buckets := st,
      providerCalled := false, storeRequest := none, persisted := none }
  else
    let lim := limited st (ipOf req) (envRateLimit e) 60000 req.now
    if lim.1 then
      { status := 429, headers := corsHeaders e,
        body := .err "Too many requests. Please wait a minute and try again.",
        buckets := lim.2, providerCalled := false, storeRequest := none,
        persisted := none }
    else if req.method ≠ "POST" then
      { status := 405, headers := corsHeaders e,
        body := .err "Method not allowed. Use POST.", buckets := lim.2,
        providerCalled := false, storeRequest := none, persisted := none }
    else if missingEnv e ≠ [] then
      { status := 500, headers := corsHeaders e,
        body := .err ("Missing env vars: " ++
          String.intercalate ", " (missingEnv e)),
        buckets := lim.2, providerCalled := false, storeRequest := none,
        persisted := none }
    else
      bodyStage e lim.2 req prov store

/-! Concrete fixtures used by counterexamples, code-bug evaluations and
witnesses. -/

/-- A fully configured environment. -/
def envFull : Env :=
  { MODEL := some "gpt-4o-mini", ALLOWED_ORIGIN := some "https://site.example",
    RATE_LIMIT_PER_MIN := some 5, OPENAI_API_KEY := some "sk-test",
    AIRTABLE_TOKEN := some "pat-test", AIRTABLE_BASE_ID := some "appBase",
    AIRTABLE_TABLE_ID := some "tblTable" }

/-- envFull with the provider credential absent. -/
def envNoKey : Env := { envFull with OPENAI_API_KEY := none }

/-- A POST request from IP 1.2.3.4 at time 1000 carrying a phrase value. -/
def postReq (pv : JsValue) : Request :=
  { method := "POST", origin := some "https://site.example",
    xForwardedFor := some "1.2.3.4", remoteAddress := none,
    now := 1000, body := .parsed pv }

/-- A bucket map in which IP 1.2.3.4 has exhausted the default quota of 5
inside a window that resets at time 50000. -/
def stFull : Buckets :=
  Buckets.set Buckets.empty "1.2.3.4" { count := 5, reset := 50000 }

/-! Helper lemmas about the bucket map and the rate limiter. -/

/-- Reading back the bucket just stored. -/
theorem Buckets.set_get (st : Buckets) (ip : String) (b : Bucket) :
    (st.set ip b) ip = some b := by
  simp [Buckets.set]

/-- limited on an ip with no bucket: creates count 1 with reset now + W. -/
theorem limited_fresh (st : Buckets) (ip : String) (limit W now : Nat)
    (h : st ip = none) :
    limited st ip limit W now =
      (decide (limit < 1), st.set ip { count := 1, reset := now + W }) := by
  unfold limited
  rw [h]
  simp only [Option.getD_none]
  rw [if_neg (Nat.not_lt.mpr (Nat.le_add_right now W))]

/-- limited inside the window (now at or before reset): increments the
count and keeps the reset timestamp. -/
theorem limited_inWindow (st : Buckets) (ip : String) (limit W now c r : Nat)
    (h : st ip = some { count := c, reset := r }) (hr : now ≤ r) :
    limited st ip limit W now =
      (decide (limit < c + 1), st.set ip { count := c + 1, reset := r }) := by
  unfold limited
  rw [h]
  simp only [Option.getD_some]
  rw [if_neg (Nat.not_lt.mpr hr)]

/-- limited strictly after the reset timestamp: the bucket is zeroed and
re-anchored before the increment, so the stored count is 1. -/
theorem limited_expired (st : Buckets) (ip : String) (limit W now c r : Nat)
    (h : st ip = some { count := c, reset := r }) (hr : r < now) :
    limited st ip limit W now =
      (decide (limit < 1), st.set ip { count := 1, reset := now + W }) := by
  unfold limited
  rw [h]
  simp only [Option.getD_some]
  rw [if_pos hr]

/-! Helper lemmas about the handler stages: every branch keeps the CORS
headers and the bucket map it was given. -/

theorem postStage_headers (e : Env) (st1 : Buckets) (p : String)
    (prov : ProviderOutcome) (store : StoreOutcome) :
    (postStage e st1 p prov store).headers = corsHeaders e := by
  unfold postStage
  cases prov with
  | throws m => rfl
  | errorStatus t => rfl
  | success c =>
      cases h : usableTranslation c with
      | none => simp [h]
      | some t => cases store <;> simp [h]

theorem postStage_buckets (e : Env) (st1 : Buckets) (p : String)
    (prov : ProviderOutcome) (store : StoreOutcome) :
    (postStage e st1 p prov store).buckets = st1 := by
  unfold postStage
  cases prov with
  | throws m => rfl
  | errorStatus t => rfl
  | success c =>
      cases h : usableTranslation c with
      | none => simp [h]
      | some t => cases store <;> simp [h]

theorem bodyStage_headers (e : Env) (st1 : Buckets) (req : Request)
    (prov : ProviderOutcome) (store : StoreOutcome) :
    (bodyStage e st1 req prov store).headers = corsHeaders e := by
  unfold bodyStage
  cases req.body with
  | malformed => rfl
  | parsed pv =>
      by_cases h : phraseAccepted pv = true
      · cases pv <;> simp [h, postStage_headers]
      · simp at h
        simp [h]

theorem bodyStage_buckets (e : Env) (st1 : Buckets) (req : Request)
    (prov : ProviderOutcome) (store : StoreOutcome) :
    (bodyStage e st1 req prov store).buckets = st1 := by
  unfold bodyStage
  cases req.body with
  | malformed => rfl
  | parsed pv =>
      by_cases h : phraseAccepted pv = true
      · cases pv <;> simp [h, postStage_buckets]
      · simp at h
        simp [h]

/-- Every handler branch responds with the same four CORS headers. -/
theorem handler_headers (e : Env) (st : Buckets) (req : Request)
    (prov : ProviderOutcome) (store : StoreOutcome) :
    (handler e st req prov store).headers = corsHeaders e := by
  simp only [handler]
  split_ifs <;> first | rfl | exact bodyStage_headers ..

/-- On any non-OPTIONS request the resulting bucket map is exactly the one
produced by the limited call, whatever happens afterwards. -/
theorem handler_buckets (e : Env) (st : Buckets) (req : Request)
    (prov : ProviderOutcome) (store : StoreOutcome)
    (h : req.method ≠ "OPTIONS") :
    (handler e st req prov store).buckets =
      (limited st (ipOf req) (envRateLimit e) 60000 req.now).2 := by
  simp only [handler]
  rw [if_neg h]
  split_ifs <;> first | rfl | exact bodyStage_buckets ..

/-! Claim theorems. -/

/-- C8: two requests that differ only in the Origin header receive the
same Access-Control-Allow-Origin header, and it equals the configured
allowed origin; the requesting origin is never reflected. -/
theorem c8_cors_never_reflects_origin (e : Env) (st : Buckets)
    (req : Request) (prov : ProviderOutcome) (store : StoreOutcome)
    (o1 o2 : Option String) :
    getHeader (handler e st { req with origin := o1 } prov store).headers
        "Access-Control-Allow-Origin" = some (envAllowedOrigin e) ∧
    getHeader (handler e st { req with origin := o1 } prov store).headers
        "Access-Control-Allow-Origin" =
      getHeader (handler e st { req with origin := o2 } prov store).headers
        "Access-Control-Allow-Origin" := by
  rw [handler_headers, handler_headers]
  exact ⟨rfl, rfl⟩

/-- C10: an OPTIONS request is answered 204 with an empty body and the
CORS headers, whatever the bucket state, and the bucket map is left
untouched; neither external service is consulted. -/
theorem c10_options_early_return (e : Env) (st : Buckets) (req : Request)
    (prov : ProviderOutcome) (store : StoreOutcome)
    (h : req.method = "OPTIONS") :
    (handler e st req prov store).status = 204 ∧
    (handler e st req prov store).body = .empty ∧
    (handler e st req prov store).headers = corsHeaders e ∧
    (handler e st req prov store).buckets = st ∧
    (handler e st req prov store).providerCalled = false ∧
    (handler e st req prov store).storeRequest = none := by
  simp [handler, h]

/-- C10 witness: an OPTIONS request against an exhausted bucket still gets
204 and leaves the bucket map unchanged. -/
theorem c10_options_early_return_witness :
    (handler envFull stFull { postReq (.str "x") with method := "OPTIONS" }
        (.success (some "y")) .ok).status = 204 ∧
    (handler envFull stFull { postReq (.str "x") with method := "OPTIONS" }
        (.success (some "y")) .ok).body = .empty ∧
    (handler envFull stFull { postReq (.str "x") with method := "OPTIONS" }
        (.success (some "y")) .ok).headers = corsHeaders envFull ∧
    (handler envFull stFull { postReq (.str "x") with method := "OPTIONS" }
        (.success (some "y")) .ok).buckets = stFull ∧
    (handler envFull stFull { postReq (.str "x") with method := "OPTIONS" }
        (.success (some "y")) .ok).providerCalled = false ∧
    (handler envFull stFull { postReq (.str "x") with method := "OPTIONS" }
        (.success (some "y")) .ok).storeRequest = none :=
  c10_options_early_return envFull stFull
    { postReq (.str "x") with method := "OPTIONS" }
    (.success (some "y")) .ok rfl

/-- C9: every non-OPTIONS request updates the bucket map exactly as the
limited call does, before the method, configuration and body checks are
even reached (the equality holds for every method, environment and
body); in particular a bucket inside its window is incremented by one. -/
theorem c9_ratelimit_counts_every_request (e : Env) (st : Buckets)
    (req : Request) (prov : ProviderOutcome) (store : StoreOutcome)
    (h : req.method ≠ "OPTIONS") :
    (handler e st req prov store).buckets =
      (limited st (ipOf req) (envRateLimit e) 60000 req.now).2 ∧
    (∀ c r, st (ipOf req) = some { count := c, reset := r } → req.now ≤ r →
      (handler e st req prov store).buckets (ipOf req) =
        some { count := c + 1, reset := r }) ∧
    (st (ipOf req) = none →
      (handler e st req prov store).buckets (ipOf req) =
        some { count := 1, reset := req.now + 60000 }) := by
  refine ⟨handler_buckets e st req prov store h, ?_, ?_⟩
  · intro c r hb hr
    rw [handler_buckets e st req prov store h,
      limited_inWindow st (ipOf req) (envRateLimit e) 60000 req.now c r hb hr]
    exact Buckets.set_get ..
  · intro hb
    rw [handler_buckets e st req prov store h,
      limited_fresh st (ipOf req) (envRateLimit e) 60000 req.now hb]
    exact Buckets.set_get ..

/-- C9 witness: a GET request (which the handler answers 405) from an IP
whose bucket holds count 2 still bumps that bucket to count 3. -/
theorem c9_ratelimit_counts_every_request_witness :
    (handler envFull (Buckets.set Buckets.empty "1.2.3.4"
          { count := 2, reset := 50000 })
        { postReq (.str "x") with method := "GET" } (.success (some "y"))
        .ok).buckets (ipOf { postReq (.str "x") with method := "GET" }) =
      some { count := 2 + 1, reset := 50000 } :=
  (c9_ratelimit_counts_every_request envFull
      (Buckets.set Buckets.empty "1.2.3.4" { count := 2, reset := 50000 })
      { postReq (.str "x") with method := "GET" } (.success (some "y")) .ok
      (by decide)).2.1 2 50000 (by decide) (by decide)

/-- C7 counterexample: a POST request arriving with the provider
credential missing is answered 429, not 500, when the client is already
rate-limited, because the admission check runs before the env check. -/
theorem c7_counterexample_limited_overrides_500 :
    (handler envNoKey stFull (postReq (.str "hello")) (.success (some "x"))
      .ok).status = 429 := by decide

/-- C7 amended: a POST request that passes the admission check while any
required configuration value is missing is answered 500, and neither the
provider nor the store is invoked. -/
theorem c7_missing_env_500 (e : Env) (st : Buckets) (req : Request)
    (prov : ProviderOutcome) (store : StoreOutcome)
    (hm : req.method = "POST")
    (hlim : (limited st (ipOf req) (envRateLimit e) 60000 req.now).1 = false)
    (henv : missingEnv e ≠ []) :
    (handler e st req prov store).status = 500 ∧
    (handler e st req prov store).providerCalled = false ∧
    (handler e st req prov store).storeRequest = none ∧
    (handler e st req prov store).persisted = none := by
  simp only [handler, hm, hlim]
  simp [henv]

/-- C7 amended witness: a non-rate-limited POST with the provider
credential absent is answered 500 with no outbound call. -/
theorem c7_missing_env_500_witness :
    (handler envNoKey Buckets.empty (postReq (.str "hello"))
      (.success (some "x")) .ok).status = 500 ∧
    (handler envNoKey Buckets.empty (postReq (.str "hello"))
      (.success (some "x")) .ok).providerCalled = false ∧
    (handler envNoKey Buckets.empty (postReq (.str "hello"))
      (.success (some "x")) .ok).storeRequest = none ∧
    (handler envNoKey Buckets.empty (postReq (.str "hello"))
      (.success (some "x")) .ok).persisted = none :=
  c7_missing_env_500 envNoKey Buckets.empty (postReq (.str "hello"))
    (.success (some "x")) .ok rfl (by decide) (by decide)

/-! Helper lemmas shared by the validation and provider claims. -/

/-- A POST request that passes the rate limit and the env check proceeds
to body handling on the updated bucket map. -/
theorem handler_not_limited_post (e : Env) (st : Buckets) (req : Request)
    (prov : ProviderOutcome) (store : StoreOutcome)
    (hm : req.method = "POST")
    (hlim : (limited st (ipOf req) (envRateLimit e) 60000 req.now).1 = false)
    (henv : missingEnv e = []) :
    handler e st req prov store =
      bodyStage e (limited st (ipOf req) (envRateLimit e) 60000 req.now).2
        req prov store := by
  simp only [handler]
  simp [hm, hlim, henv]

/-- A rate-limited non-OPTIONS request is answered 429 with no outbound
call, whatever its method, environment and body. -/
theorem handler_limited (e : Env) (st : Buckets) (req : Request)
    (prov : ProviderOutcome) (store : StoreOutcome)
    (h : req.method ≠ "OPTIONS")
    (hl : (limited st (ipOf req) (envRateLimit e) 60000 req.now).1 = true) :
    handler e st req prov store =
      { status := 429, headers := corsHeaders e,
        body := .err "Too many requests. Please wait a minute and try again.",
        buckets := (limited st (ipOf req) (envRateLimit e) 60000 req.now).2,
        providerCalled := false, storeRequest := none, persisted := none } := by
  simp only [handler]
  rw [if_neg h]
  simp [hl]

/-- A parsed body whose phrase value the code rejects yields the 400
Missing phrase response without touching either external service. -/
theorem bodyStage_invalid (e : Env) (st1 : Buckets) (req : Request)
    (prov : ProviderOutcome) (store : StoreOutcome) (pv : JsValue)
    (hbody : req.body = .parsed pv) (hpv : phraseAccepted pv = false) :
    bodyStage e st1 req prov store =
      { status := 400, headers := corsHeaders e, body := .err "Missing phrase",
        buckets := st1, providerCalled := false, storeRequest := none,
        persisted := none } := by
  unfold bodyStage
  rw [hbody]
  simp [hpv]

/-- A parsed body carrying a non-empty string phrase proceeds to the
provider stage with that phrase. -/
theorem bodyStage_valid (e : Env) (st1 : Buckets) (req : Request)
    (prov : ProviderOutcome) (store : StoreOutcome) (s : String)
    (hbody : req.body = .parsed (.str s)) (hs : s ≠ "") :
    bodyStage e st1 req prov store = postStage e st1 s prov store := by
  unfold bodyStage
  rw [hbody]
  have hacc : phraseAccepted (.str s) = true := by simp [phraseAccepted, hs]
  simp [hacc]

/-- A usable translation is never the empty string. -/
theorem usableTranslation_ne_empty (c : Option String) (t : String)
    (h : usableTranslation c = some t) : t ≠ "" := by
  unfold usableTranslation at h
  cases c with
  | none => exact absurd h (by simp)
  | some c' =>
      simp only [] at h
      by_cases he : jsTrim c' = ""
      · rw [if_pos he] at h
        exact absurd h (by simp)
      · rw [if_neg he] at h
        cases h
        exact he

/-- C1: with a successful provider call, a store write that fails with a
non-success HTTP status is indeed non-fatal (200, translation present,
ok false plus detail), but a store call that throws is caught by the
outer catch and answered 500 with no translation, contradicting the
non-fatality of network errors. -/
theorem c1_store_throw_fatal_bug :
    (handler envFull Buckets.empty (postReq (.str "circle back"))
        (.success (some "We will ignore this forever."))
        (.errorStatus "airtable 503")).status = 200 ∧
    (handler envFull Buckets.empty (postReq (.str "circle back"))
        (.success (some "We will ignore this forever."))
        (.errorStatus "airtable 503")).body =
      .success "We will ignore this forever." "gpt-4o-mini" false
        (some "airtable 503") ∧
    (handler envFull Buckets.empty (postReq (.str "circle back"))
        (.success (some "We will ignore this forever."))
        (.throws "network down")).status = 500 ∧
    (handler envFull Buckets.empty (postReq (.str "circle back"))
        (.success (some "We will ignore this forever."))
        (.throws "network down")).body =
      .errDetail "Server error" "network down" := by
  refine ⟨by decide, by decide, by decide, by decide⟩

/-- C2 counterexample: a phrase consisting of a single space is accepted
by the code (no trimming in the check), so the provider is invoked and
the response is not 400, although the phrase is empty after trimming. -/
theorem c2_counterexample_whitespace_phrase :
    (handler envFull Buckets.empty (postReq (.str " "))
        (.success (some "snark")) .ok).providerCalled = true ∧
    (handler envFull Buckets.empty (postReq (.str " "))
        (.success (some "snark")) .ok).status ≠ 400 := by
  refine ⟨by decide, by decide⟩

/-- C2 amended: for a POST request that passes the rate-limit and env
checks, a phrase that is absent, not a string, or the empty string is
answered 400 and neither the provider nor the store is invoked;
whitespace-only strings, however, are accepted as-is. -/
theorem c2_invalid_phrase_400 (e : Env) (st : Buckets) (req : Request)
    (prov : ProviderOutcome) (store : StoreOutcome) (pv : JsValue)
    (hm : req.method = "POST")
    (hlim : (limited st (ipOf req) (envRateLimit e) 60000 req.now).1 = false)
    (henv : missingEnv e = [])
    (hbody : req.body = .parsed pv)
    (hpv : phraseAccepted pv = false) :
    (handler e st req prov store).status = 400 ∧
    (handler e st req prov store).providerCalled = false ∧
    (handler e st req prov store).storeRequest = none ∧
    (handler e st req prov store).persisted = none := by
  rw [handler_not_limited_post e st req prov store hm hlim henv,
    bodyStage_invalid e _ req prov store pv hbody hpv]
  exact ⟨rfl, rfl, rfl, rfl⟩

/-- C2 amended witness: an absent phrase on an otherwise clean POST gets
400 with no outbound calls. -/
theorem c2_invalid_phrase_400_witness :
    (handler envFull Buckets.empty (postReq .undefined)
      (.success (some "x")) .ok).status = 400 ∧
    (handler envFull Buckets.empty (postReq .undefined)
      (.success (some "x")) .ok).providerCalled = false ∧
    (handler envFull Buckets.empty (postReq .undefined)
      (.success (some "x")) .ok).storeRequest = none ∧
    (handler envFull Buckets.empty (postReq .undefined)
      (.success (some "x")) .ok).persisted = none :=
  c2_invalid_phrase_400 envFull Buckets.empty (postReq .undefined)
    (.success (some "x")) .ok .undefined rfl (by decide) (by decide) rfl rfl

/-- C3 counterexample: a rate-limited request with an empty phrase is
answered 429, not 400, because the admission check runs first. -/
theorem c3_counterexample_429_on_invalid_phrase :
    (handler envFull stFull (postReq (.str "")) (.success (some "x"))
      .ok).status = 429 := by decide

/-- C3 amended: the rate-limit check runs before input validation: a POST
request with an invalid phrase is answered 400 only when the client is
not rate-limited, and 429 when it is; in both cases neither the provider
nor the store is invoked. -/
theorem c3_ratelimit_before_validation (e : Env) (st : Buckets)
    (req : Request) (prov : ProviderOutcome) (store : StoreOutcome)
    (pv : JsValue)
    (hm : req.method = "POST")
    (hbody : req.body = .parsed pv)
    (hpv : phraseAccepted pv = false)
    (henv : missingEnv e = []) :
    ((limited st (ipOf req) (envRateLimit e) 60000 req.now).1 = true →
      (handler e st req prov store).status = 429) ∧
    ((limited st (ipOf req) (envRateLimit e) 60000 req.now).1 = false →
      (handler e st req prov store).status = 400) ∧
    (handler e st req prov store).providerCalled = false ∧
    (handler e st req prov store).storeRequest = none := by
  have hno : req.method ≠ "OPTIONS" := by rw [hm]; decide
  by_cases hl : (limited st (ipOf req) (envRateLimit e) 60000 req.now).1 = true
  · rw [handler_limited e st req prov store hno hl]
    exact ⟨fun _ => rfl, fun hc => absurd hl (by rw [hc]; decide), rfl, rfl⟩
  · have hl' : (limited st (ipOf req) (envRateLimit e) 60000 req.now).1 =
        false := by
      cases hq : (limited st (ipOf req) (envRateLimit e) 60000 req.now).1
      · rfl
      · exact absurd hq hl
    rw [handler_not_limited_post e st req prov store hm hl' henv,
      bodyStage_invalid e _ req prov store pv hbody hpv]
    exact ⟨fun hc => absurd hc hl, fun _ => rfl, rfl, rfl⟩

/-- C3 amended witness: a rate-limited empty-phrase POST really hits the
429 branch. -/
theorem c3_ratelimit_before_validation_witness :
    (limited stFull (ipOf (postReq (.str ""))) (envRateLimit envFull) 60000
      (postReq (.str "")).now).1 = true ∧
    (handler envFull stFull (postReq (.str "")) (.success (some "x"))
      .ok).status = 429 ∧
    (handler envFull stFull (postReq (.str "")) (.success (some "x"))
      .ok).providerCalled = false :=
  ⟨by decide,
    (c3_ratelimit_before_validation envFull stFull (postReq (.str ""))
      (.success (some "x")) .ok (.str "") rfl rfl rfl (by decide)).1
      (by decide),
    (c3_ratelimit_before_validation envFull stFull (postReq (.str ""))
      (.success (some "x")) .ok (.str "") rfl rfl rfl (by decide)).2.2.1⟩

/-- C4: on a valid POST with a usable provider completion, a store
write that completes with success or with a non-success status yields
200 with the trimmed translation and the configured model; but a store
call that throws makes the handler answer 500 without the translation,
so the response shape does not survive every store outcome. -/
theorem c4_success_shape_and_store_throw_bug :
    (handler envFull Buckets.empty (postReq (.str "synergy"))
        (.success (some " Needs more buzzwords. ")) .ok).status = 200 ∧
    (handler envFull Buckets.empty (postReq (.str "synergy"))
        (.success (some " Needs more buzzwords. ")) .ok).body =
      .success "Needs more buzzwords." "gpt-4o-mini" true none ∧
    (handler envFull Buckets.empty (postReq (.str "synergy"))
        (.success (some " Needs more buzzwords. "))
        (.errorStatus "422")).body =
      .success "Needs more buzzwords." "gpt-4o-mini" false (some "422") ∧
    (handler envFull Buckets.empty (postReq (.str "synergy"))
        (.success (some " Needs more buzzwords. "))
        (.throws "socket hang up")).status = 500 ∧
    (handler envFull Buckets.empty (postReq (.str "synergy"))
        (.success (some " Needs more buzzwords. "))
        (.throws "socket hang up")).body =
      .errDetail "Server error" "socket hang up" := by
  refine ⟨by decide, by decide, by decide, by decide, by decide⟩

/-- C5: on a POST that reaches the provider, a non-success provider
status or an unusable payload is answered 502 with the store never
invoked, and any record handed to the store (and any record persisted)
carries the validated phrase, the configured model and a non-empty
translation. -/
theorem c5_store_only_after_usable_translation (e : Env) (st : Buckets)
    (req : Request) (prov : ProviderOutcome) (store : StoreOutcome)
    (s : String)
    (hm : req.method = "POST")
    (hlim : (limited st (ipOf req) (envRateLimit e) 60000 req.now).1 = false)
    (henv : missingEnv e = [])
    (hbody : req.body = .parsed (.str s)) (hs : s ≠ "") :
    (∀ txt, prov = .errorStatus txt →
      (handler e st req prov store).status = 502 ∧
      (handler e st req prov store).storeRequest = none ∧
      (handler e st req prov store).persisted = none) ∧
    (∀ c, prov = .success c → usableTranslation c = none →
      (handler e st req prov store).status = 502 ∧
      (handler e st req prov store).storeRequest = none ∧
      (handler e st req prov store).persisted = none) ∧
    (∀ r, (handler e st req prov store).storeRequest = some r →
      r.Translation ≠ "" ∧ r.Phrase = s ∧ r.Model = envModel e) ∧
    (∀ r, (handler e st req prov store).persisted = some r →
      (handler e st req prov store).storeRequest = some r ∧
      r.Translation ≠ "") := by
  rw [handler_not_limited_post e st req prov store hm hlim henv,
    bodyStage_valid e _ req prov store s hbody hs]
  refine ⟨?_, ?_, ?_, ?_⟩
  · intro txt hp
    subst hp
    exact ⟨rfl, rfl, rfl⟩
  · intro c hp hu
    subst hp
    unfold postStage
    simp [hu]
  · intro r hr
    cases prov with
    | throws m => exact absurd hr (by simp [postStage])
    | errorStatus t => exact absurd hr (by simp [postStage])
    | success c =>
        unfold postStage at hr
        simp only [] at hr
        cases hu : usableTranslation c with
        | none => rw [hu] at hr; exact absurd hr (by simp)
        | some t =>
            rw [hu] at hr
            have ht := usableTranslation_ne_empty c t hu
            cases store <;> simp only [Option.some.injEq] at hr <;>
              subst hr <;> exact ⟨ht, rfl, rfl⟩
  · intro r hr
    cases prov with
    | throws m => exact absurd hr (by simp [postStage])
    | errorStatus t => exact absurd hr (by simp [postStage])
    | success c =>
        unfold postStage at hr ⊢
        simp only [] at hr
        cases hu : usableTranslation c with
        | none => rw [hu] at hr; exact absurd hr (by simp)
        | some t =>
            rw [hu] at hr
            have ht := usableTranslation_ne_empty c t hu
            cases store with
            | throws m => simp at hr
            | errorStatus x => simp at hr
            | ok =>
                simp only [Option.some.injEq] at hr
                subst hr
                refine ⟨?_, ht⟩
                simp only [hu]

/-- C5 witness: a provider quota failure on a clean POST is answered 502
and nothing is handed to the store. -/
theorem c5_store_only_after_usable_translation_witness :
    (handler envFull Buckets.empty (postReq (.str "hi"))
      (.errorStatus "quota exhausted") .ok).status = 502 ∧
    (handler envFull Buckets.empty (postReq (.str "hi"))
      (.errorStatus "quota exhausted") .ok).storeRequest = none ∧
    (handler envFull Buckets.empty (postReq (.str "hi"))
      (.errorStatus "quota exhausted") .ok).persisted = none :=
  (c5_store_only_after_usable_translation envFull Buckets.empty
      (postReq (.str "hi")) (.errorStatus "quota exhausted") .ok "hi"
      rfl (by decide) (by decide) rfl (by decide)).1
    "quota exhausted" rfl

/-! Sequences of limited calls, for the fixed-window claim. -/

/-- Run limited once per timestamp in order, returning the final bucket
map and the list of rejection flags in request order. -/
def limitedRun (st : Buckets) (ip : String) (limit W : Nat) :
    List Nat → Buckets × List Bool
  | [] => (st, [])
  | t :: ts =>
      let r1 := limited st ip limit W t
      let r2 := limitedRun r1.2 ip limit W ts
      (r2.1, r1.1 :: r2.2)

/-- Element access into the standard map-over-range pattern of flags. -/
theorem getD_range_map (g : Nat → Bool) (n i : Nat) (d : Bool) (h : i < n) :
    ((List.range n).map g).getD i d = g i := by
  rw [List.getD_eq_getElem?_getD, List.getElem?_map, List.getElem?_range h]
  rfl

/-- Steady-state run: starting from a bucket with count c and reset r,
a sequence of calls all at or before r increments the count once per
call and flags exactly the calls whose running count exceeds the limit. -/
theorem limitedRun_inWindow (ip : String) (limit W r : Nat) :
    ∀ (ts : List Nat) (st : Buckets) (c : Nat),
      st ip = some { count := c, reset := r } →
      (∀ t ∈ ts, t ≤ r) →
      (limitedRun st ip limit W ts).1 ip =
        some { count := c + ts.length, reset := r } ∧
      (limitedRun st ip limit W ts).2 =
        (List.range ts.length).map (fun j => decide (limit < c + j + 1)) := by
  intro ts
  induction ts with
  | nil =>
      intro st c hb _
      simpa [limitedRun] using hb
  | cons t ts ih =>
      intro st c hb hts
      have hstep := limited_inWindow st ip limit W t c r hb
        (hts t (List.mem_cons_self t ts))
      obtain ⟨ih1, ih2⟩ := ih (st.set ip { count := c + 1, reset := r })
        (c + 1) (Buckets.set_get ..)
        (fun t' ht' => hts t' (List.mem_cons_of_mem _ ht'))
      constructor
      · simp only [limitedRun]
        rw [hstep]
        simp only [List.length_cons]
        have hc : c + 1 + ts.length = c + (ts.length + 1) := by omega
        rw [← hc]
        exact ih1
      · simp only [limitedRun]
        rw [hstep]
        simp only []
        rw [ih2]
        have hfe : (fun j => decide (limit < c + 1 + j + 1)) =
            (fun j => decide (limit < c + (j + 1) + 1)) := by
          funext j
          have h2 : c + 1 + j + 1 = c + (j + 1) + 1 := by omega
          rw [h2]
        rw [hfe]
        simp [List.range_succ_eq_map, List.map_map, Function.comp,
          Nat.succ_eq_add_one]

/-- C6: with admission threshold N (at least one) and window W, a fresh
client making N plus one requests whose later timestamps all fall at or
before the first window boundary t0 plus W sees the first N requests
admitted and the last rejected; a further request strictly after the
boundary is admitted again and finds the counter fully reset to one
with a fresh window anchored at its own time. -/
theorem c6_fixed_window (ip : String) (N W t0 tLate : Nat) (ts : List Nat)
    (hN : 1 ≤ N) (hlen : ts.length = N) (hts : ∀ t ∈ ts, t ≤ t0 + W)
    (hlate : t0 + W < tLate) :
    (∀ i, i < N →
      (limitedRun Buckets.empty ip N W (t0 :: ts)).2.getD i true = false) ∧
    (limitedRun Buckets.empty ip N W (t0 :: ts)).2.getD N false = true ∧
    (limited (limitedRun Buckets.empty ip N W (t0 :: ts)).1 ip N W
      tLate).1 = false ∧
    (limited (limitedRun Buckets.empty ip N W (t0 :: ts)).1 ip N W
      tLate).2 ip = some { count := 1, reset := tLate + W } := by
  have h0 : Buckets.empty ip = none := rfl
  have hfresh := limited_fresh Buckets.empty ip N W t0 h0
  have hb1 : (Buckets.empty.set ip { count := 1, reset := t0 + W }) ip =
      some { count := 1, reset := t0 + W } := Buckets.set_get ..
  obtain ⟨hfin, hflags⟩ := limitedRun_inWindow ip N W (t0 + W) ts
    (Buckets.empty.set ip { count := 1, reset := t0 + W }) 1 hb1 hts
  have hrun : limitedRun Buckets.empty ip N W (t0 :: ts) =
      ((limitedRun (Buckets.empty.set ip { count := 1, reset := t0 + W })
          ip N W ts).1,
        decide (N < 1) ::
          (limitedRun (Buckets.empty.set ip { count := 1, reset := t0 + W })
            ip N W ts).2) := by
    simp only [limitedRun]
    rw [hfresh]
  have hdec1 : decide (N < 1) = false := decide_eq_false (by omega)
  refine ⟨?_, ?_, ?_, ?_⟩
  · intro i hi
    rw [hrun]
    cases i with
    | zero => rw [List.getD_cons_zero]; exact hdec1
    | succ i' =>
        simp only [List.getD_cons_succ]
        rw [hflags, getD_range_map _ _ _ _ (by omega : i' < ts.length)]
        exact decide_eq_false (by omega)
  · rw [hrun]
    obtain ⟨M, rfl⟩ : ∃ M, N = M + 1 := ⟨N - 1, by omega⟩
    simp only [List.getD_cons_succ]
    rw [hflags, getD_range_map _ _ _ _ (by omega : M < ts.length)]
    exact decide_eq_true (by omega)
  · rw [hrun]
    simp only []
    rw [limited_expired _ ip N W tLate (1 + ts.length) (t0 + W) hfin hlate]
    exact hdec1
  · rw [hrun]
    simp only []
    rw [limited_expired _ ip N W tLate (1 + ts.length) (t0 + W) hfin hlate]
    exact Buckets.set_get ..

/-- C6 witness: threshold 2, window 60000, requests at 0, 10 and 20 give
admit, admit, reject; a request at 60001 is admitted with the counter
reset to one and the window re-anchored. -/
theorem c6_fixed_window_witness :
    (limitedRun Buckets.empty "9.9.9.9" 2 60000 [0, 10, 20]).2.getD 0 true
      = false ∧
    (limitedRun Buckets.empty "9.9.9.9" 2 60000 [0, 10, 20]).2.getD 1 true
      = false ∧
    (limitedRun Buckets.empty "9.9.9.9" 2 60000 [0, 10, 20]).2.getD 2 false
      = true ∧
    (limited (limitedRun Buckets.empty "9.9.9.9" 2 60000 [0, 10, 20]).1
      "9.9.9.9" 2 60000 60001).1 = false ∧
    (limited (limitedRun Buckets.empty "9.9.9.9" 2 60000 [0, 10, 20]).1
      "9.9.9.9" 2 60000 60001).2 "9.9.9.9" =
      some { count := 1, reset := 60001 + 60000 } :=
  ⟨(c6_fixed_window "9.9.9.9" 2 60000 0 60001 [10, 20] (by decide) rfl
      (by decide) (by decide)).1 0 (by decide),
    (c6_fixed_window "9.9.9.9" 2 60000 0 60001 [10, 20] (by decide) rfl
      (by decide) (by decide)).1 1 (by decide),
    (c6_fixed_window "9.9.9.9" 2 60000 0 60001 [10, 20] (by decide) rfl
      (by decide) (by decide)).2.1,
    (c6_fixed_window "9.9.9.9" 2 60000 0 60001 [10, 20] (by decide) rfl
      (by decide) (by decide)).2.2.1,
    (c6_fixed_window "9.9.9.9" 2 60000 0 60001 [10, 20] (by decide) rfl
      (by decide) (by decide)).2.2.2⟩


end UnfilterHR
